import Mathlib

/-!
# Verification of the GHIssuesAgent session core

Shallow embedding of the remote-session core of the GHIssuesAgent
repository: cache-key normalization and the artifact cache
(`src/utils/utils.py`, `src/agents/agent2_feasibility_analyzer.py`,
`src/agents/agent3_plan.py`), the artifact-extraction chain
(`src/utils/utils.py`, `src/core/session_manager.py`), the session
poller, cancellation and the rate-limited call wrapper
(`src/core/session_manager.py`), and the module import graph.

Python dictionaries/JSON documents are modelled by the inductive `Json`;
network transports are parameters (`Nat → Option Json` for the poller,
`String → String → Option Json` for attachment downloads), with `none`
standing for a raised transport exception or a parse failure.

Loops are embedded as fuel-indexed structural recursions whose wrappers
supply fuel provably larger than the number of iterations the Python
loop can perform, so every definition evaluates by `rfl`/`decide`.
-/

namespace GHIssues

/-- JSON-like documents, the duck-typed dict/list/str/num values the Python
code passes around. -/
inductive Json where
  | null : Json
  | bool (b : Bool) : Json
  | num (n : Int) : Json
  | str (s : String) : Json
  | arr (xs : List Json) : Json
  | obj (kvs : List (String × Json)) : Json

/-- `d.get(k)` on a Python dict: `none` when the key is absent or the value
is not a dict. -/
def Json.get : Json → String → Option Json
  | .obj kvs, k => kvs.lookup k
  | _, _ => none

/-- `d.get(k, default)`. -/
def Json.getD (j : Json) (k : String) (d : Json) : Json :=
  (j.get k).getD d

/-! ## Python string primitives

The Python code uses `str.replace` (replace every non-overlapping
occurrence, scanning left to right).  Modelled on `List Char` with fuel
equal to the string length: each step consumes at least one character,
so the fuel-exhausted branch is unreachable. -/

/-- Whether `p` is a prefix of `s` (for the left-to-right replace scan). -/
def isPrefixL : List Char → List Char → Bool
  | [], _ => true
  | _ :: _, [] => false
  | p :: ps, c :: cs => p == c && isPrefixL ps cs

/-- One fuelled pass of Python `str.replace`: replace every non-overlapping
occurrence of `pat` by `rep`, scanning left to right. -/
def replaceAux (pat rep : List Char) : Nat → List Char → List Char
  | _, [] => []
  | 0, s => s
  | fuel + 1, c :: cs =>
    if pat ≠ [] ∧ isPrefixL pat (c :: cs) = true then
      rep ++ replaceAux pat rep fuel ((c :: cs).drop pat.length)
    else
      c :: replaceAux pat rep fuel cs

/-- Python `str.replace` on character lists. -/
def replaceL (pat rep s : List Char) : List Char :=
  replaceAux pat rep s.length s

/-- `str.replace` lifted back to `String`. -/
def pyReplace (s pat rep : String) : String :=
  ⟨replaceL pat.data rep.data s.data⟩

/-! ## Cache-key normalization — `src/utils/utils.py:11-13` -/

/-- `get_cache_key(repo_url)`:
`repo_url.replace("https://github.com/", "").replace("/", "_")`. -/
def get_cache_key (repo_url : String) : String :=
  pyReplace (pyReplace repo_url "https://github.com/" "") "/" "_"

/-! ## Session poller — `src/core/session_manager.py`

`get_session_details` (lines 35-46) wraps the HTTP GET in
`safe_devin_api_call` and returns `{}` on any exception.  The transport is
a parameter `Nat → Option Json` giving, for each successive call, either
the decoded response body or `none` for a raised exception.

`wait_for_session_completion` (lines 107-130) loops while
`time.time() - start_time < timeout`, polling once per iteration and
sleeping 10 seconds after each non-terminal poll.  Time is modelled
abstractly: polls are instantaneous and each `time.sleep(10)` advances the
clock by 10, so the elapsed clock after `j` completed iterations is
`10 * j`.  The loop is fuelled with `timeout + 1`, which exceeds the
largest possible iteration count `⌈timeout / 10⌉`. -/

/-- `get_session_details`: the decoded response, or `{}` when the transport
raised (`except Exception: return {}`). -/
def get_session_details (transport : Nat → Option Json) (k : Nat) : Json :=
  (transport k).getD (Json.obj [])

/-- The dict `{"error": "timeout"}` returned when the deadline passes
(`src/core/session_manager.py:130`). -/
def timeoutResult : Json :=
  Json.obj [("error", Json.str "timeout")]

/-- The terminal-status test of `src/core/session_manager.py:122`:
`session_data.get("status_enum") in ["completed", "failed", "stopped",
"blocked"]`. -/
def isTerminalSnap (snap : Json) : Bool :=
  match snap.get "status_enum" with
  | some (Json.str s) => ["completed", "failed", "stopped", "blocked"].contains s
  | _ => false

/-- Outcome of one poller run: the returned dict, the number of
`get_session_details` calls made, and the clock value at return. -/
structure PollOut where
  result : Json
  polls : Nat
  elapsed : Nat

/-- The fuelled polling loop: `k` counts polls made so far, `t` is the
current clock.  The fuel-exhausted branch coincides with the loop-exit
branch and is unreachable under the wrapper's fuel. -/
def waitAux (transport : Nat → Option Json) (timeout : Nat) :
    Nat → Nat → Nat → PollOut
  | 0, k, t => ⟨timeoutResult, k, t⟩
  | fuel + 1, k, t =>
    if t < timeout then
      let snap := get_session_details transport k
      if isTerminalSnap snap then ⟨snap, k + 1, t⟩
      else waitAux transport timeout fuel (k + 1) (t + 10)
    else ⟨timeoutResult, k, t⟩

/-- `wait_for_session_completion(session_id, timeout, show_live=False)`
over an abstract transport. -/
def wait_for_session_completion (transport : Nat → Option Json)
    (timeout : Nat) : PollOut :=
  waitAux transport timeout (timeout + 1) 0 0

/-! ## Cancellation — `src/core/session_manager.py:88-104`

`cancel_session` loops `for attempt in range(max_attempts)`, each
iteration calling `send_session_message` once (one outbound stop message
attempt); it returns `True` on the first successful delivery and `False`
when the budget is exhausted.  The function receives no session status and
never queries one.  `send : Nat → Bool` gives the delivery outcome of each
successive attempt (an exception inside an attempt behaves like `False`:
both sleep and continue). -/

/-- The attempt loop: `remaining` attempts left, `attempted` messages sent
so far.  Returns (delivered?, total messages sent). -/
def cancelAux (send : Nat → Bool) : Nat → Nat → Bool × Nat
  | 0, attempted => (false, attempted)
  | remaining + 1, attempted =>
    if send attempted then (true, attempted + 1)
    else cancelAux send remaining (attempted + 1)

/-- `cancel_session(session_id, max_attempts=30)` over an abstract message
transport. -/
def cancel_session (send : Nat → Bool) (max_attempts : Nat) : Bool × Nat :=
  cancelAux send max_attempts 0

/-! ## Rate-limiter admission traces — `src/core/session_manager.py`

Each transport operation is modelled by the sequence of rate-limiter and
network events its body performs (success path, first attempt).
`safe_devin_api_call` (lines 263-277) performs the lock-guarded
minimum-delay admission check before invoking the wrapped function. -/

/-- One observable event of a transport operation. -/
inductive ApiEvent where
  | acquire : ApiEvent
  | network (req : String) : ApiEvent
  deriving DecidableEq, Repr

/-- `safe_devin_api_call(func, ...)`: the admission step, then the wrapped
call's events. -/
def safe_devin_api_call_trace (call : List ApiEvent) : List ApiEvent :=
  ApiEvent.acquire :: call

/-- `create_devin_session` (lines 18-32): wraps its POST in
`safe_devin_api_call`. -/
def create_devin_session_trace : List ApiEvent :=
  safe_devin_api_call_trace [ApiEvent.network "POST /sessions"]

/-- `get_session_details` (lines 35-46): wraps its GET in
`safe_devin_api_call`. -/
def get_session_details_trace : List ApiEvent :=
  safe_devin_api_call_trace [ApiEvent.network "GET /session/{id}"]

/-- `send_session_message` (lines 72-85): issues `requests.post` directly,
with no call to `safe_devin_api_call`. -/
def send_session_message_trace : List ApiEvent :=
  [ApiEvent.network "POST /session/{id}/message"]

/-- `download_attachment` (lines 148-161): issues `requests.get` directly,
with no call to `safe_devin_api_call`. -/
def download_attachment_trace : List ApiEvent :=
  [ApiEvent.network "GET /attachments/{uuid}/{name}"]

/-- Helper for `admitted`: `seen` records whether an admission step has
already occurred before the current position. -/
def admittedAux : Bool → List ApiEvent → Bool
  | _, [] => true
  | _, ApiEvent.acquire :: rest => admittedAux true rest
  | seen, ApiEvent.network _ :: rest => seen && admittedAux seen rest

/-- A trace is admitted when every network event is preceded by an
admission (`acquire`) event. -/
def admitted (tr : List ApiEvent) : Bool :=
  admittedAux false tr

/-! ## Module import graph

`from M import a, b` in Python resolves each listed name against the
attributes module `M` defines; a missing name raises `ImportError` at load
time, before any function in the importing module can run.  The name lists
below transcribe the `def`/assignment/import statements of the relevant
modules. -/

/-- Top-level names bound by `src/utils/config.py` (its own imports plus
its assignments, lines 1-22). -/
def utils_config_names : List String :=
  ["os", "load_dotenv", "DEVIN_API_KEY", "DEVIN_API_BASE",
   "SCAN_TIMEOUT", "TARGETED_ANALYSIS_TIMEOUT", "FULL_ANALYSIS_TIMEOUT",
   "EXECUTION_TIMEOUT", "ISSUES_FETCH_TIMEOUT"]

/-- Names `src/core/session_manager.py:8-15` imports from `utils.config`. -/
def core_session_manager_config_imports : List String :=
  ["DEVIN_API_BASE", "DEVIN_API_KEY", "FULL_ANALYSIS_TIMEOUT",
   "EXECUTION_TIMEOUT", "ISSUES_FETCH_TIMEOUT", "MIN_SECONDS_BETWEEN_CALLS"]

/-- Top-level names bound by `src/utils/utils.py` (its imports plus its
function definitions, lines 1-224). -/
def utils_utils_names : List String :=
  ["requests", "json", "os", "re", "Dict", "List", "Optional",
   "DEVIN_API_KEY", "DEVIN_API_BASE",
   "get_cache_key", "get_issue_file_path", "check_cache", "save_to_cache",
   "prepare_issue_data", "run_devin_session", "run_devin_execution",
   "extract_analysis_from_session", "get_cache_file_path",
   "download_json_attachments", "_parse_attachment_url",
   "extract_attachment_urls_from_messages",
   "extract_attachments_from_session_data",
   "extract_pr_url_from_session", "cancel_session"]

/-- Names `src/agents/agent2_feasibility_analyzer.py:8` imports from
`utils.utils`. -/
def agent2_utils_imports : List String :=
  ["extract_json_from_attachments", "extract_json_from_message_content",
   "get_cache_key"]

/-- Whether a `from M import ...` statement succeeds: every requested name
must be bound by the exporting module. -/
def from_import_ok (requested defined : List String) : Bool :=
  requested.all (fun n => defined.contains n)

/-- A session snapshot whose only field is the given `status_enum`. -/
def statusSnapshot (s : String) : Json :=
  Json.obj [("status_enum", Json.str s)]

/-! ## Attachment extraction — `src/utils/utils.py`, `src/core/session_manager.py`

The marker scan implements `re.findall(r'ATTACHMENT:"([^\"]+)"', content)`:
non-overlapping matches, scanned left to right, each capture a nonempty
run of non-quote characters closed by a quote.  The URL parse implements
`re.search(r'/attachments/([^/]+)/([^/]+)$', url)`: the URL must end in
`/attachments/{uuid}/{name}` with both segments nonempty and
slash-free. -/

/-- Whether `pat` occurs as a contiguous substring (Python `in`). -/
def containsSub (pat : List Char) : List Char → Bool
  | [] => isPrefixL pat []
  | c :: cs => isPrefixL pat (c :: cs) || containsSub pat cs

/-- Fuelled scan for `ATTACHMENT:"<capture>"` markers.  A successful match
consumes the marker, the capture and its closing quote; a failed match
attempt advances one character, exactly as `re.findall` resumes. -/
def scanMarkersAux (marker : List Char) : Nat → List Char → List (List Char)
  | _, [] => []
  | 0, _ => []
  | fuel + 1, c :: cs =>
    if isPrefixL marker (c :: cs) = true then
      let rest := (c :: cs).drop marker.length
      let cap := rest.takeWhile (fun ch => ch ≠ '"')
      if cap ≠ [] ∧ cap.length < rest.length then
        cap :: scanMarkersAux marker fuel (rest.drop (cap.length + 1))
      else
        scanMarkersAux marker fuel cs
    else
      scanMarkersAux marker fuel cs

/-- `re.findall(r'ATTACHMENT:"([^\"]+)"', content)`. -/
def scanAttachmentMarkers (content : String) : List String :=
  (scanMarkersAux "ATTACHMENT:\"".data content.data.length content.data).map
    (fun l => ⟨l⟩)

/-- Split a character list at a separator (Python `str.split`). -/
def splitOnCharAux (sep : Char) : List Char → List Char → List (List Char)
  | acc, [] => [acc.reverse]
  | acc, c :: cs =>
    if c == sep then acc.reverse :: splitOnCharAux sep [] cs
    else splitOnCharAux sep (c :: acc) cs

/-- An attachment reference: `{"uuid": ..., "name": ..., "url": ...}`. -/
structure Attachment where
  uuid : String
  name : String
  url : String
  deriving DecidableEq

/-- `_parse_attachment_url(url)` — `src/utils/utils.py:121-130`: the URL
must end in `/attachments/<uuid>/<name>`, i.e. its slash-split form ends
with `..., "attachments", uuid, name` preceded by at least one more
segment (the slash before `attachments`), with `uuid`, `name` nonempty. -/
def parse_attachment_url (url : String) : Option Attachment :=
  match (splitOnCharAux '/' [] url.data).reverse with
  | nm :: uu :: seg :: _ :: _ =>
    if seg = "attachments".data ∧ nm ≠ [] ∧ uu ≠ [] then
      some ⟨⟨uu⟩, ⟨nm⟩, url⟩
    else none
  | _ => none

/-- The `type` field of a message dict equals `"devin_message"`. -/
def is_devin_message (msg : Json) : Bool :=
  match msg.get "type" with
  | some (Json.str t) => t == "devin_message"
  | _ => false

/-- `msg.get("message", "")` (message contents are strings). -/
def message_content (msg : Json) : String :=
  match msg.get "message" with
  | some (Json.str c) => c
  | _ => ""

/-- `extract_attachment_urls_from_messages(messages)` —
`src/utils/utils.py:133-147` (the scan of
`src/core/session_manager.py:164-185` is identical): for each
agent-authored message containing `ATTACHMENT:`, parse every marker URL,
in message order. -/
def extract_attachment_urls_from_messages (messages : List Json) :
    List Attachment :=
  messages.flatMap (fun msg =>
    if is_devin_message msg then
      let content := message_content msg
      if containsSub "ATTACHMENT:".data content.data then
        (scanAttachmentMarkers content).filterMap parse_attachment_url
      else []
    else [])

/-- The `messages` list of a session dict. -/
def session_messages (session_data : Json) : List Json :=
  match session_data.get "messages" with
  | some (Json.arr ms) => ms
  | _ => []

/-- The URL strings under `structured_output["attachments"]` —
`src/utils/utils.py:163-170`: present only when `structured_output` is a
truthy (nonempty) dict carrying an `attachments` key (a list of URL
strings). -/
def structured_attachment_urls (session_data : Json) : List String :=
  match session_data.get "structured_output" with
  | some (Json.obj kvs) =>
    match kvs with
    | [] => []
    | _ :: _ =>
      match (Json.obj kvs).get "attachments" with
      | some (Json.arr xs) =>
        xs.filterMap (fun x =>
          match x with
          | Json.str s => some s
          | _ => none)
      | _ => []
  | _ => []

/-- First-occurrence de-duplication by `uuid` against a `seen` set. -/
def dedupByUuid : List Attachment → List String → List Attachment
  | [], _ => []
  | a :: rest, seen =>
    if seen.contains a.uuid then dedupByUuid rest seen
    else a :: dedupByUuid rest (a.uuid :: seen)

/-- `extract_attachments_from_session_data(session_data)` —
`src/utils/utils.py:150-172`: attachments referenced in messages first,
then URLs listed in `structured_output["attachments"]`, de-duplicated by
uuid with one shared seen-set. -/
def extract_attachments_from_session_data (session_data : Json) :
    List Attachment :=
  dedupByUuid
    (extract_attachment_urls_from_messages (session_messages session_data) ++
      (structured_attachment_urls session_data).filterMap
        parse_attachment_url)
    []

/-- `name.startswith(pre)`. -/
def pyStartsWith (s pre : String) : Bool :=
  isPrefixL pre.data s.data

/-- `name.endswith(suf)`. -/
def pyEndsWith (s suf : String) : Bool :=
  isPrefixL suf.data.reverse s.data.reverse

/-- `name.lower()`. -/
def pyLower (s : String) : String :=
  ⟨s.data.map Char.toLower⟩

/-- A downloaded file record `{"name": ..., "data": ..., "uuid": ...}`. -/
structure DownloadedFile where
  name : String
  data : Json
  uuid : String

/-- `download_json_attachments(message_attachments, name_filter)` —
`src/utils/utils.py:79-118`: keep attachments whose name passes the
prefix filter and ends (case-insensitively) in `.json`; fetch and parse
each via the transport (`none` models a request error or a JSON decode
error, both skipped), preserving list order. -/
def download_json_attachments (transport : String → String → Option Json)
    (message_attachments : List Attachment) (name_filter : Option String) :
    List DownloadedFile :=
  message_attachments.filterMap (fun a =>
    if (match name_filter with
        | some f => ! pyStartsWith a.name f
        | none => false) then none
    else if ¬ pyEndsWith (pyLower a.name) ".json" then none
    else
      match transport a.uuid a.name with
      | some data => some ⟨a.name, data, a.uuid⟩
      | none => none)

/-- `extract_analysis_from_session(result, analysis_type)` —
`src/utils/utils.py:62-70`: gather session attachments, download the
JSON ones matching the filter, return the first file's data; raise
`ValueError` when none match. -/
def extract_analysis_from_session (transport : String → String → Option Json)
    (result : Json) (analysis_type : String) : Except String Json :=
  match download_json_attachments transport
      (extract_attachments_from_session_data result) (some analysis_type) with
  | [] => Except.error
      ("No " ++ analysis_type ++ " JSON file found in Devin session result")
  | f :: _ => Except.ok f.data

/-- `extract_json_from_session(result, name_filter, return_single=True)` —
`src/core/session_manager.py:188-226`: an `error` key short-circuits;
otherwise attachments come from the messages only, and the first
successfully downloaded matching JSON attachment's data is returned;
`ValueError` when none match. -/
def extract_json_from_session (transport : String → String → Option Json)
    (result : Json) (name_filter : Option String) : Except String Json :=
  match result.get "error" with
  | some e => Except.ok (Json.obj [("error", e)])
  | none =>
    match download_json_attachments transport
        (extract_attachment_urls_from_messages (session_messages result))
        name_filter with
    | [] => Except.error "No JSON files found matching filter"
    | f :: _ => Except.ok f.data

/-! ## Artifact cache — `src/agents/agent2_feasibility_analyzer.py:19-87`,
`src/agents/agent3_plan.py:20-106`

The cache is the directory of JSON files consulted with
`os.path.exists` and written with `json.dump`; modelled as an
association list from file path to document (newest entry first — a
rewrite shadows the old value).  The remote round-trip of a cache miss
(create session, poll to completion) is a parameter `create_wait`, and
its cost is counted as one remote call; a cache hit performs none.
Agent 2's `_extract_analysis_data` post-processing is the parameter
`extract_analysis` (the cache behavior is uniform in it). -/

/-- The cache directory contents. -/
structure CacheState where
  entries : List (String × Json)

/-- `os.path.exists` + `json.load`. -/
def cache_lookup (st : CacheState) (k : String) : Option Json :=
  st.entries.lookup k

/-- `json.dump` to the cache file (last writer wins). -/
def cache_store (st : CacheState) (k : String) (v : Json) : CacheState :=
  ⟨(k, v) :: st.entries⟩

/-- `dict.update` for one key: replace in place or append. -/
def obj_set (kvs : List (String × Json)) (k : String) (v : Json) :
    List (String × Json) :=
  match kvs with
  | [] => [(k, v)]
  | (k', v') :: rest =>
    if k' == k then (k, v) :: rest else (k', v') :: obj_set rest k v

/-- `analysis_data.update({...})` on a dict. -/
def json_update (j : Json) (upd : List (String × Json)) : Json :=
  match j with
  | Json.obj kvs =>
    Json.obj (upd.foldl (fun acc kv => obj_set acc kv.1 kv.2) kvs)
  | _ => j

/-- The cache path of agent 2
(`os.path.join(self.cache_dir, f"feasibility_{get_cache_key(repo_url)}_{issue_number}.json")`). -/
def feasibility_cache_file (cache_dir repo_url issue_number : String) :
    String :=
  cache_dir ++ "/feasibility_" ++ get_cache_key repo_url ++ "_" ++
    issue_number ++ ".json"

/-- The cache path of agent 3
(`os.path.join(self.cache_dir, f"plan_{get_cache_key(repo_url)}_{issue_number}.json")`). -/
def plan_cache_file (cache_dir repo_url issue_number : String) : String :=
  cache_dir ++ "/plan_" ++ get_cache_key repo_url ++ "_" ++
    issue_number ++ ".json"

/-- `FeasibilityAnalyzerAgent.analyze_issue_feasibility` —
`src/agents/agent2_feasibility_analyzer.py:19-87`.  Returns the payload,
the cache state after the call, and the number of remote round-trips
performed by this call. -/
def analyze_issue_feasibility (create_wait : Unit → Json)
    (extract_analysis : Json → Json)
    (cache_dir repo_url issue_number issue_title : String)
    (st : CacheState) : Json × CacheState × Nat :=
  let cache_file := feasibility_cache_file cache_dir repo_url issue_number
  match cache_lookup st cache_file with
  | some cached => (cached, st, 0)
  | none =>
    let result := create_wait ()
    let analysis_data := json_update (extract_analysis result)
      [("issue_number", Json.str issue_number),
       ("issue_title", Json.str issue_title),
       ("repo_url", Json.str repo_url),
       ("analysis_method", Json.str "feasibility_analysis")]
    (analysis_data, cache_store st cache_file analysis_data, 1)

/-- An attachment dict `{"uuid": ..., "name": ...}` from
`result["message_attachments"]`. -/
def attachment_of_json (j : Json) : Attachment :=
  ⟨(match j.get "uuid" with
    | some (Json.str u) => u
    | _ => ""),
   (match j.get "name" with
    | some (Json.str n) => n
    | _ => ""),
   ""⟩

/-- `result.get("message_attachments", [])` as attachment records. -/
def plan_message_attachments (result : Json) : List Attachment :=
  match result.get "message_attachments" with
  | some (Json.arr xs) => xs.map attachment_of_json
  | _ => []

/-- `PlanAgent.review_files_and_plan` — `src/agents/agent3_plan.py:20-106`:
cache check, else remote session, download of the first `plan*.json`
message attachment (`ValueError` when none), metadata update, cache
write. -/
def review_files_and_plan (transport : String → String → Option Json)
    (create_wait : Unit → Json)
    (cache_dir repo_url issue_number issue_title : String)
    (st : CacheState) : Except String (Json × CacheState × Nat) :=
  let cache_file := plan_cache_file cache_dir repo_url issue_number
  match cache_lookup st cache_file with
  | some cached => Except.ok (cached, st, 0)
  | none =>
    let result := create_wait ()
    match download_json_attachments transport
        (plan_message_attachments result) (some "plan") with
    | [] => Except.error "No plan JSON file found in Devin session result"
    | f :: _ =>
      let plan_data := json_update f.data
        [("issue_number", Json.str issue_number),
         ("issue_title", Json.str issue_title)]
      Except.ok (plan_data, cache_store st cache_file plan_data, 1)

/-! ## Concrete instances used in counterexamples and witnesses -/

/-- A direct structured-result field: content the claim's tier 1 would
return. -/
def C1_structured_content : Json :=
  Json.obj [("feasibility_score", Json.num 1)]

/-- The matching JSON attachment's parsed content — different from the
structured field. -/
def C1_attachment_data : Json :=
  Json.obj [("feasibility_score", Json.num 2)]

/-- A completed session carrying both the direct structured field and an
agent message referencing a matching `feasibility_1.json` attachment. -/
def C1_session : Json := Json.obj
  [("status_enum", Json.str "completed"),
   ("structured_output", C1_structured_content),
   ("messages", Json.arr [Json.obj
     [("type", Json.str "devin_message"),
      ("message", Json.str
        "Done. ATTACHMENT:\"https://app.devin.ai/attachments/u1/feasibility_1.json\"")]])]

/-- The same session with a different direct structured field. -/
def C1_session_variant : Json := Json.obj
  [("status_enum", Json.str "completed"),
   ("structured_output", Json.obj [("feasibility_score", Json.num 99)]),
   ("messages", Json.arr [Json.obj
     [("type", Json.str "devin_message"),
      ("message", Json.str
        "Done. ATTACHMENT:\"https://app.devin.ai/attachments/u1/feasibility_1.json\"")]])]

/-- A transport whose every download parses to `C1_attachment_data`. -/
def C1_transport : String → String → Option Json :=
  fun _ _ => some C1_attachment_data

/-- A cached analysis document. -/
def C7_doc : Json := Json.obj [("feasibility_score", Json.num 42)]

/-- Cache holding a feasibility entry for repo `a/b`, issue 1. -/
def C7_feas_state : CacheState :=
  ⟨[("cache/feasibility_a_b_1.json", C7_doc)]⟩

/-- Cache holding a plan entry for repo `a/b`, issue 1. -/
def C7_plan_state : CacheState :=
  ⟨[("cache/plan_a_b_1.json", C7_doc)]⟩

/-- The payload a cache-missing feasibility call produces from an empty
extraction (`extract_analysis = id`, remote result `{}`): the metadata
update alone. -/
def C7_feas_payload : Json := Json.obj
  [("issue_number", Json.str "1"), ("issue_title", Json.str "T"),
   ("repo_url", Json.str "https://github.com/a/b"),
   ("analysis_method", Json.str "feasibility_analysis")]

/-- Cache state after that miss. -/
def C7_feas_state1 : CacheState :=
  ⟨[("cache/feasibility_a_b_1.json", C7_feas_payload)]⟩

/-- A session result exposing one `plan.json` message attachment. -/
def C7_plan_session : Json := Json.obj
  [("message_attachments", Json.arr
    [Json.obj [("uuid", Json.str "u1"), ("name", Json.str "plan.json")]])]

/-- The payload a cache-missing plan call produces from `C7_plan_session`
with every download parsing to `C7_doc`. -/
def C7_plan_payload : Json := Json.obj
  [("feasibility_score", Json.num 42), ("issue_number", Json.str "1"),
   ("issue_title", Json.str "T")]

/-- Cache state after that miss. -/
def C7_plan_state1 : CacheState :=
  ⟨[("cache/plan_a_b_1.json", C7_plan_payload)]⟩

end GHIssues

namespace GHIssues

/-! ## Poller lemmas -/

/-- A run whose first `n` polls (from poll index `k`) are non-terminal and
whose `(n+1)`-st is terminal returns that terminal snapshot after exactly
`n + 1` polls, at clock `t + 10 * n`, provided the deadline and fuel
allow reaching it. -/
theorem waitAux_first_terminal (transport : Nat → Option Json)
    (timeout : Nat) (n : Nat) :
    ∀ fuel k t, n < fuel →
      (∀ i, i < n →
        isTerminalSnap (get_session_details transport (k + i)) = false) →
      isTerminalSnap (get_session_details transport (k + n)) = true →
      t + 10 * n < timeout →
      waitAux transport timeout fuel k t =
        ⟨get_session_details transport (k + n), k + n + 1, t + 10 * n⟩ := by
  induction n with
  | zero =>
    intro fuel k t hfuel _ hterm ht
    cases fuel with
    | zero => omega
    | succ f =>
      simp only [Nat.add_zero] at hterm
      simp only [waitAux]
      rw [if_pos (by omega)]
      simp [hterm]
  | succ n ih =>
    intro fuel k t hfuel hpre hterm ht
    cases fuel with
    | zero => omega
    | succ f =>
      have h0 : isTerminalSnap (get_session_details transport k) = false := by
        have := hpre 0 (by omega)
        simpa using this
      simp only [waitAux]
      rw [if_pos (by omega)]
      simp only [h0, if_false]
      have e1 : ∀ i, k + 1 + i = k + (i + 1) := by omega
      have := ih f (k + 1) (t + 10) (by omega)
        (fun i hi => by rw [e1 i]; exact hpre (i + 1) (by omega))
        (by rw [e1 n]; exact hterm)
        (by omega)
      rw [this]
      have e2 : k + 1 + n = k + (n + 1) := by omega
      have e3 : t + 10 + 10 * n = t + 10 * (n + 1) := by omega
      rw [e2, e3]
      simp

/-- A run in which no poll is ever terminal returns the timeout dict, at a
clock at least `timeout` and strictly below `timeout + 10`. -/
theorem waitAux_never_terminal (transport : Nat → Option Json)
    (timeout : Nat)
    (hnt : ∀ i, isTerminalSnap (get_session_details transport i) = false) :
    ∀ fuel k t, timeout ≤ t + 10 * fuel → t < timeout + 10 →
      (waitAux transport timeout fuel k t).result = timeoutResult ∧
      timeout ≤ (waitAux transport timeout fuel k t).elapsed ∧
      (waitAux transport timeout fuel k t).elapsed < timeout + 10 := by
  intro fuel
  induction fuel with
  | zero =>
    intro k t hfuel ht
    refine ⟨rfl, ?_, ?_⟩
    · show timeout ≤ t
      omega
    · show t < timeout + 10
      exact ht
  | succ f ih =>
    intro k t hfuel ht
    by_cases hlt : t < timeout
    · have : waitAux transport timeout (f + 1) k t =
          waitAux transport timeout f (k + 1) (t + 10) := by
        simp only [waitAux]
        rw [if_pos hlt]
        simp [hnt k]
      rw [this]
      exact ih (k + 1) (t + 10) (by omega) (by omega)
    · have : waitAux transport timeout (f + 1) k t = ⟨timeoutResult, k, t⟩ := by
        simp only [waitAux]
        rw [if_neg hlt]
      rw [this]
      refine ⟨rfl, ?_, ?_⟩
      · show timeout ≤ t
        omega
      · show t < timeout + 10
        exact ht

/-- Two transports all of whose polls are non-terminal produce identical
poller runs. -/
theorem waitAux_nonterminal_congr (tr₁ tr₂ : Nat → Option Json)
    (timeout : Nat)
    (h₁ : ∀ i, isTerminalSnap (get_session_details tr₁ i) = false)
    (h₂ : ∀ i, isTerminalSnap (get_session_details tr₂ i) = false) :
    ∀ fuel k t,
      waitAux tr₁ timeout fuel k t = waitAux tr₂ timeout fuel k t := by
  intro fuel
  induction fuel with
  | zero => intro k t; rfl
  | succ f ih =>
    intro k t
    by_cases hlt : t < timeout
    · simp only [waitAux]
      rw [if_pos hlt, if_pos hlt]
      simp only [h₁ k, h₂ k, if_false]
      exact ih (k + 1) (t + 10)
    · simp only [waitAux]
      rw [if_neg hlt, if_neg hlt]

/-! ## Cancellation lemma -/

/-- If every attempt fails, the attempt loop exhausts its budget: it
returns `false` after sending one message per attempt. -/
theorem cancelAux_all_fail (send : Nat → Bool) :
    ∀ remaining attempted,
      (∀ i, i < remaining → send (attempted + i) = false) →
      cancelAux send remaining attempted = (false, attempted + remaining) := by
  intro remaining
  induction remaining with
  | zero => intro attempted _; rfl
  | succ r ih =>
    intro attempted hfail
    have h0 : send attempted = false := by
      have := hfail 0 (by omega)
      simpa using this
    simp only [cancelAux, h0, if_false]
    have := ih (attempted + 1)
      (fun i hi => by
        have := hfail (i + 1) (by omega)
        simpa [Nat.add_assoc, Nat.add_comm, Nat.add_left_comm] using this)
    rw [this]
    have : attempted + 1 + r = attempted + (r + 1) := by omega
    rw [this]
    simp

end GHIssues

namespace GHIssues

/-- C2 counterexample: the claim's terminal set includes `expired`, but the
code's check (`src/core/session_manager.py:122`) lists only `completed`,
`failed`, `stopped`, `blocked`.  With a transport reporting
`status_enum: "expired"` and a 10-second deadline, the first poll's status
lies in the claim's terminal set, yet the poller does not return that
snapshot: it keeps polling and returns the timeout dict. -/
theorem C2_expired_not_terminal_counterexample :
    wait_for_session_completion (fun _ => some (statusSnapshot "expired")) 10 =
      ⟨timeoutResult, 1, 10⟩ ∧
    timeoutResult ≠ statusSnapshot "expired" := by
  refine ⟨rfl, ?_⟩
  simp [timeoutResult, statusSnapshot]

/-- C2 amended: the poller returns the session snapshot on the first poll
whose status is one of the code's terminal values `completed`, `failed`,
`stopped`, `blocked` (`expired` is not treated as terminal); if the first
`n` polls are non-terminal and the `(n+1)`-st is terminal within the
deadline, it returns that snapshot after exactly `n + 1` polls. -/
theorem C2_first_terminal_poll (transport : Nat → Option Json)
    (timeout n : Nat)
    (hpre : ∀ i, i < n →
      isTerminalSnap (get_session_details transport i) = false)
    (hterm : isTerminalSnap (get_session_details transport n) = true)
    (hd : 10 * n < timeout) :
    wait_for_session_completion transport timeout =
      ⟨get_session_details transport n, n + 1, 10 * n⟩ := by
  have := waitAux_first_terminal transport timeout n (timeout + 1) 0 0
    (by omega) (by simpa using hpre) (by simpa using hterm) (by omega)
  simpa [wait_for_session_completion] using this

/-- C2 witness: a transport reporting `working` on the first two polls and
`completed` on the third makes the poller return after exactly 3 polls. -/
theorem C2_first_terminal_poll_witness :
    wait_for_session_completion
      (fun k => some (statusSnapshot (if k < 2 then "working" else "completed")))
      600 =
      ⟨statusSnapshot "completed", 3, 20⟩ := by
  have := C2_first_terminal_poll
    (fun k => some (statusSnapshot (if k < 2 then "working" else "completed")))
    600 2 (by decide) (by decide) (by decide)
  simpa using this

/-- C3 counterexample: `send_session_message` (post message) and
`download_attachment` (fetch attachment) issue their network calls
directly, with no rate-limiter admission event in their traces. -/
theorem C3_unadmitted_calls_counterexample :
    admitted send_session_message_trace = false ∧
    admitted download_attachment_trace = false :=
  ⟨rfl, rfl⟩

/-- C3 amended: only create-session and fetch-session-state pass through
`safe_devin_api_call`'s lock-guarded admission before their network call;
post-message and fetch-attachment reach the network with no admission. -/
theorem C3_admission_coverage :
    admitted create_devin_session_trace = true ∧
    admitted get_session_details_trace = true ∧
    admitted send_session_message_trace = false ∧
    admitted download_attachment_trace = false :=
  ⟨rfl, rfl, rfl, rfl⟩

/-- C4: when no poll ever reports a terminal status, the poller returns the
distinct timeout dict `{"error": "timeout"}` (a value, not a raised
exception), at a clock at least the deadline and strictly less than the
deadline plus one 10-second poll interval. -/
theorem C4_timeout_result (transport : Nat → Option Json) (timeout : Nat)
    (hnt : ∀ k, isTerminalSnap (get_session_details transport k) = false) :
    (wait_for_session_completion transport timeout).result = timeoutResult ∧
    timeout ≤ (wait_for_session_completion transport timeout).elapsed ∧
    (wait_for_session_completion transport timeout).elapsed < timeout + 10 := by
  have := waitAux_never_terminal transport timeout hnt (timeout + 1) 0 0
    (by omega) (by omega)
  simpa [wait_for_session_completion] using this

/-- C4 witness: an always-`working` transport with a 25-second deadline
yields the timeout dict at clock 30 ∈ [25, 35). -/
theorem C4_timeout_result_witness :
    (wait_for_session_completion (fun _ => some (statusSnapshot "working"))
      25).result = timeoutResult ∧
    25 ≤ (wait_for_session_completion (fun _ => some (statusSnapshot "working"))
      25).elapsed ∧
    (wait_for_session_completion (fun _ => some (statusSnapshot "working"))
      25).elapsed < 25 + 10 :=
  C4_timeout_result (fun _ => some (statusSnapshot "working")) 25
    (fun _ => rfl)

/-- C5 counterexample: with a transport that raises on every poll and a
50-second deadline, the poller makes 5 consecutive failing polls — more
than the claimed threshold of 3 — yet the outcome is the plain timeout
dict, which is not a `PollingUnreachable` result and carries no session
id. -/
theorem C5_no_polling_unreachable_counterexample :
    wait_for_session_completion (fun _ => none) 50 =
      ⟨timeoutResult, 5, 50⟩ ∧
    timeoutResult.get "session_id" = none :=
  ⟨rfl, rfl⟩

/-- C5 amended: transport errors during polling are swallowed entirely
(`get_session_details` returns `{}` on any exception); no
consecutive-failure threshold exists and no `PollingUnreachable` outcome
exists — a run with only failing polls continues to the deadline and
yields the timeout dict. -/
theorem C5_errors_swallowed (transport : Nat → Option Json) (timeout : Nat)
    (hfail : ∀ k, transport k = none) :
    (wait_for_session_completion transport timeout).result = timeoutResult ∧
    timeout ≤ (wait_for_session_completion transport timeout).elapsed := by
  have hnt : ∀ k,
      isTerminalSnap (get_session_details transport k) = false := by
    intro k
    simp [get_session_details, hfail k, isTerminalSnap, Json.get]
  have := waitAux_never_terminal transport timeout hnt (timeout + 1) 0 0
    (by omega) (by omega)
  exact ⟨this.1, this.2.1⟩

/-- C5 amended witness: an always-raising transport with a 50-second
deadline ends in the timeout dict at a clock past the deadline. -/
theorem C5_errors_swallowed_witness :
    (wait_for_session_completion (fun _ => none) 50).result = timeoutResult ∧
    50 ≤ (wait_for_session_completion (fun _ => none) 50).elapsed :=
  C5_errors_swallowed (fun _ => none) 50 (fun _ => rfl)

/-- C6 counterexample: `cancel_session` consults no session status (it has
no access to one); for a session whose transport reports `completed`, a
cancel whose first delivery succeeds returns true having sent exactly one
message, not zero. -/
theorem C6_sends_message_counterexample :
    cancel_session (fun _ => true) 30 = (true, 1) ∧ (1 : Nat) ≠ 0 :=
  ⟨rfl, by decide⟩

/-- C6 amended: `cancel_session` performs no status check; regardless of
the session's status it attempts delivery up to `max_attempts` times,
returning true after exactly one message when the first delivery succeeds,
and false after `max_attempts` messages when every delivery fails. -/
theorem C6_no_status_check (send : Nat → Bool) (n : Nat) :
    (0 < n → send 0 = true → cancel_session send n = (true, 1)) ∧
    ((∀ i, i < n → send i = false) → cancel_session send n = (false, n)) := by
  constructor
  · intro hn h0
    cases n with
    | zero => omega
    | succ m => simp [cancel_session, cancelAux, h0]
  · intro hfail
    have := cancelAux_all_fail send n 0 (fun i hi => by simpa using hfail i hi)
    simpa [cancel_session] using this

/-- C6 amended witness: an always-successful transport delivers on the
first of 30 attempts (one message); an always-failing transport exhausts a
3-attempt budget (three messages, result false). -/
theorem C6_no_status_check_witness :
    cancel_session (fun _ => true) 30 = (true, 1) ∧
    cancel_session (fun _ => false) 3 = (false, 3) :=
  ⟨(C6_no_status_check (fun _ => true) 30).1 (by decide) rfl,
   (C6_no_status_check (fun _ => false) 3).2 (fun _ _ => rfl)⟩

/-- C8: `src/core/session_manager.py` imports `MIN_SECONDS_BETWEEN_CALLS`
from `utils.config`, and `src/agents/agent2_feasibility_analyzer.py`
imports `extract_json_from_attachments` and
`extract_json_from_message_content` from `utils.utils`, yet none of the
three names is bound by the exporting module, so both `from ... import`
statements fail at module load time. -/
theorem C8_missing_import_names :
    ("MIN_SECONDS_BETWEEN_CALLS" ∈ core_session_manager_config_imports ∧
     "MIN_SECONDS_BETWEEN_CALLS" ∉ utils_config_names) ∧
    ("extract_json_from_attachments" ∈ agent2_utils_imports ∧
     "extract_json_from_attachments" ∉ utils_utils_names) ∧
    ("extract_json_from_message_content" ∈ agent2_utils_imports ∧
     "extract_json_from_message_content" ∉ utils_utils_names) ∧
    from_import_ok core_session_manager_config_imports utils_config_names
      = false ∧
    from_import_ok agent2_utils_imports utils_utils_names = false := by
  refine ⟨⟨?_, ?_⟩, ⟨?_, ?_⟩, ⟨?_, ?_⟩, rfl, rfl⟩ <;> decide

/-- C10: a transport that raises on every call is indistinguishable from a
still-working session: `get_session_details` maps every failure to `{}`,
the poller run coincides step for step with an always-`working` run, and
the outcome is the timeout dict, reached no earlier than the full
deadline. -/
theorem C10_unreachable_like_working (transport : Nat → Option Json)
    (timeout : Nat) (hfail : ∀ k, transport k = none) :
    (∀ k, get_session_details transport k = Json.obj []) ∧
    wait_for_session_completion transport timeout =
      wait_for_session_completion
        (fun _ => some (statusSnapshot "working")) timeout ∧
    (wait_for_session_completion transport timeout).result = timeoutResult ∧
    timeout ≤ (wait_for_session_completion transport timeout).elapsed := by
  have hempty : ∀ k, get_session_details transport k = Json.obj [] := by
    intro k
    simp [get_session_details, hfail k]
  have hnt : ∀ k,
      isTerminalSnap (get_session_details transport k) = false := by
    intro k
    simp [hempty k, isTerminalSnap, Json.get]
  have hnt' : ∀ k,
      isTerminalSnap
        (get_session_details (fun _ => some (statusSnapshot "working")) k)
        = false := fun _ => rfl
  refine ⟨hempty, ?_, ?_, ?_⟩
  · exact waitAux_nonterminal_congr transport
      (fun _ => some (statusSnapshot "working")) timeout hnt hnt'
      (timeout + 1) 0 0
  · exact (waitAux_never_terminal transport timeout hnt (timeout + 1) 0 0
      (by omega) (by omega)).1
  · exact (waitAux_never_terminal transport timeout hnt (timeout + 1) 0 0
      (by omega) (by omega)).2.1

/-- C10 witness: the always-raising transport at a 30-second deadline. -/
theorem C10_unreachable_like_working_witness :
    (∀ k, get_session_details (fun _ => none) k = Json.obj []) ∧
    wait_for_session_completion (fun _ => none) 30 =
      wait_for_session_completion
        (fun _ => some (statusSnapshot "working")) 30 ∧
    (wait_for_session_completion (fun _ => none) 30).result = timeoutResult ∧
    30 ≤ (wait_for_session_completion (fun _ => none) 30).elapsed :=
  C10_unreachable_like_working (fun _ => none) 30 (fun _ => rfl)

/-- C9: `get_cache_key` is not injective: the two distinct repository URLs
`https://github.com/a/b_c` and `https://github.com/a_b/c` normalize to the
same cache key, so cache entries for distinct repositories can alias. -/
theorem C9_get_cache_key_not_injective :
    get_cache_key "https://github.com/a/b_c" =
      get_cache_key "https://github.com/a_b/c" ∧
    ("https://github.com/a/b_c" : String) ≠ "https://github.com/a_b/c" := by
  constructor
  · rfl
  · decide

end GHIssues

namespace GHIssues

/-- A freshly stored cache entry is found by the next lookup. -/
theorem cache_lookup_store (st : CacheState) (k : String) (v : Json) :
    cache_lookup (cache_store st k v) k = some v := by
  simp [cache_lookup, cache_store, List.lookup]

/-- C1 counterexample: a completed session carrying both a direct
structured-result field (`feasibility_score: 1`) and a matching
`feasibility_1.json` attachment with different content
(`feasibility_score: 2`).  Both extraction operations return the
attachment's content, not the structured field's: there is no tier that
returns the structured field's own content. -/
theorem C1_structured_field_loses_counterexample :
    extract_analysis_from_session C1_transport C1_session "feasibility" =
      Except.ok C1_attachment_data ∧
    extract_json_from_session C1_transport C1_session (some "feasibility") =
      Except.ok C1_attachment_data ∧
    C1_session.get "structured_output" = some C1_structured_content ∧
    C1_attachment_data ≠ C1_structured_content := by
  refine ⟨rfl, rfl, rfl, ?_⟩
  simp [C1_attachment_data, C1_structured_content]

/-- C1 amended: the extraction operation never consults the structured
field's own content — it scans attachments referenced in agent messages
and attachment URLs listed under `structured_output["attachments"]`
(deduplicated by uuid), and the first matching successfully downloaded
JSON attachment's parsed data wins.  Hence two sessions with the same
messages and the same structured attachment-URL list extract identically,
whatever their structured fields hold, and a first successful download
determines the result. -/
theorem C1_attachment_scan_wins (transport : String → String → Option Json)
    (s₁ s₂ : Json) (ft : String)
    (hm : session_messages s₁ = session_messages s₂)
    (hs : structured_attachment_urls s₁ = structured_attachment_urls s₂) :
    extract_analysis_from_session transport s₁ ft =
      extract_analysis_from_session transport s₂ ft ∧
    (∀ f fs, download_json_attachments transport
        (extract_attachments_from_session_data s₁) (some ft) = f :: fs →
      extract_analysis_from_session transport s₁ ft = Except.ok f.data) := by
  have he : extract_attachments_from_session_data s₁ =
      extract_attachments_from_session_data s₂ := by
    unfold extract_attachments_from_session_data
    rw [hm, hs]
  constructor
  · unfold extract_analysis_from_session
    rw [he]
  · intro f fs h
    unfold extract_analysis_from_session
    rw [h]

/-- C1 amended witness: the two concrete sessions differing only in their
structured fields extract identically, and the result is the attachment's
data. -/
theorem C1_attachment_scan_wins_witness :
    extract_analysis_from_session C1_transport C1_session "feasibility" =
      extract_analysis_from_session C1_transport C1_session_variant
        "feasibility" ∧
    extract_analysis_from_session C1_transport C1_session "feasibility" =
      Except.ok C1_attachment_data :=
  ⟨(C1_attachment_scan_wins C1_transport C1_session C1_session_variant
      "feasibility" rfl rfl).1,
   (C1_attachment_scan_wins C1_transport C1_session C1_session_variant
      "feasibility" rfl rfl).2
     ⟨"feasibility_1.json", C1_attachment_data, "u1"⟩ [] rfl⟩

/-- C7: a present cache entry short-circuits the remote work — the cached
document is returned with zero remote calls — and a second invocation
with the same normalized key performs zero additional remote calls and
returns the first invocation's exact payload, for both the feasibility
analysis and the planning operation. -/
theorem C7_cache_hit_idempotent (create_wait : Unit → Json)
    (extract_analysis : Json → Json)
    (transport : String → String → Option Json)
    (cache_dir repo_url issue_number issue_title : String)
    (st : CacheState) :
    (∀ doc, cache_lookup st
        (feasibility_cache_file cache_dir repo_url issue_number) = some doc →
      analyze_issue_feasibility create_wait extract_analysis cache_dir
        repo_url issue_number issue_title st = (doc, st, 0)) ∧
    (∀ p₁ st₁ n₁,
      analyze_issue_feasibility create_wait extract_analysis cache_dir
        repo_url issue_number issue_title st = (p₁, st₁, n₁) →
      analyze_issue_feasibility create_wait extract_analysis cache_dir
        repo_url issue_number issue_title st₁ = (p₁, st₁, 0)) ∧
    (∀ doc, cache_lookup st
        (plan_cache_file cache_dir repo_url issue_number) = some doc →
      review_files_and_plan transport create_wait cache_dir repo_url
        issue_number issue_title st = Except.ok (doc, st, 0)) ∧
    (∀ p₁ st₁ n₁,
      review_files_and_plan transport create_wait cache_dir repo_url
        issue_number issue_title st = Except.ok (p₁, st₁, n₁) →
      review_files_and_plan transport create_wait cache_dir repo_url
        issue_number issue_title st₁ = Except.ok (p₁, st₁, 0)) := by
  refine ⟨?_, ?_, ?_, ?_⟩
  · intro doc h
    simp [analyze_issue_feasibility, h]
  · intro p₁ st₁ n₁ h
    cases hl : cache_lookup st
        (feasibility_cache_file cache_dir repo_url issue_number) with
    | some cached =>
      simp only [analyze_issue_feasibility, hl, Prod.mk.injEq] at h
      obtain ⟨rfl, rfl, rfl⟩ := h
      simp [analyze_issue_feasibility, hl]
    | none =>
      simp only [analyze_issue_feasibility, hl, Prod.mk.injEq] at h
      obtain ⟨rfl, rfl, rfl⟩ := h
      simp [analyze_issue_feasibility, cache_lookup_store]
  · intro doc h
    simp [review_files_and_plan, h]
  · intro p₁ st₁ n₁ h
    cases hl : cache_lookup st
        (plan_cache_file cache_dir repo_url issue_number) with
    | some cached =>
      simp only [review_files_and_plan, hl, Except.ok.injEq,
        Prod.mk.injEq] at h
      obtain ⟨rfl, rfl, rfl⟩ := h
      simp [review_files_and_plan, hl]
    | none =>
      simp only [review_files_and_plan, hl] at h
      cases hd : download_json_attachments transport
          (plan_message_attachments (create_wait ())) (some "plan") with
      | nil =>
        rw [hd] at h
        exact absurd h (by simp)
      | cons f fs =>
        rw [hd] at h
        simp only [Except.ok.injEq, Prod.mk.injEq] at h
        obtain ⟨rfl, rfl, rfl⟩ := h
        simp [review_files_and_plan, cache_lookup_store]

/-- C7 witness: cache hits return the stored document with zero remote
calls, and second invocations after a miss return the miss's payload with
zero remote calls, for both agents. -/
theorem C7_cache_hit_idempotent_witness :
    analyze_issue_feasibility (fun _ => Json.obj []) id "cache"
      "https://github.com/a/b" "1" "T" C7_feas_state =
      (C7_doc, C7_feas_state, 0) ∧
    analyze_issue_feasibility (fun _ => Json.obj []) id "cache"
      "https://github.com/a/b" "1" "T" C7_feas_state1 =
      (C7_feas_payload, C7_feas_state1, 0) ∧
    review_files_and_plan (fun _ _ => some C7_doc)
      (fun _ => C7_plan_session) "cache" "https://github.com/a/b" "1" "T"
      C7_plan_state = Except.ok (C7_doc, C7_plan_state, 0) ∧
    review_files_and_plan (fun _ _ => some C7_doc)
      (fun _ => C7_plan_session) "cache" "https://github.com/a/b" "1" "T"
      C7_plan_state1 = Except.ok (C7_plan_payload, C7_plan_state1, 0) :=
  ⟨(C7_cache_hit_idempotent (fun _ => Json.obj []) id (fun _ _ => none)
      "cache" "https://github.com/a/b" "1" "T" C7_feas_state).1 C7_doc rfl,
   (C7_cache_hit_idempotent (fun _ => Json.obj []) id (fun _ _ => none)
      "cache" "https://github.com/a/b" "1" "T" ⟨[]⟩).2.1
     C7_feas_payload C7_feas_state1 1 rfl,
   (C7_cache_hit_idempotent (fun _ => C7_plan_session) id
      (fun _ _ => some C7_doc) "cache" "https://github.com/a/b" "1" "T"
      C7_plan_state).2.2.1 C7_doc rfl,
   (C7_cache_hit_idempotent (fun _ => C7_plan_session) id
      (fun _ _ => some C7_doc) "cache" "https://github.com/a/b" "1" "T"
      ⟨[]⟩).2.2.2 C7_plan_payload C7_plan_state1 1 rfl⟩

end GHIssues
